import Mathlib

/-!
# Climate-Agri Shield — verification of the scenario simulation core

Shallow embedding of `src/app.py` (the scenario simulation and
risk-decision engine).  Numeric values are modelled as exact rationals
(`ℚ`); the feature dictionaries built at lines 91–97 are modelled as
association lists keyed by an inductive of indicator names; the
prediction path of the script (lines 88–145) is modelled as an
`Except`-returning orchestrator in which the two serialized models are
explicit function parameters.
-/

namespace ClimateAgriShield

/-- Indicator names appearing in `RISK_FEATURES` / `YIELD_FEATURES`
(src/app.py lines 65–71). -/
inductive Feature where
  | Area_Harvested
  | Production_Tonnes
  | Avg_Temp
  | Temp_Volatility
  | GDP_current_US
  | political_stability_estimate
  | Inflation
  | CO2_emisions
  | Agri_Land_Percent
  | Forest_Land_Percent
  | population
deriving DecidableEq, Repr

/-- One row of `data/Master_Dataset NEW.csv` as used by the script:
country, year, and the numeric indicators (spec §3 CountryRecord). -/
structure CountryRecord where
  country : String
  year : Int
  Area_Harvested : ℚ
  Production_Tonnes : ℚ
  Avg_Temp : ℚ
  Temp_Volatility : ℚ
  GDP_current_US : ℚ
  political_stability_estimate : ℚ
  Inflation : ℚ
  CO2_emisions : ℚ
  Agri_Land_Percent : ℚ
  Forest_Land_Percent : ℚ
  population : ℚ
deriving DecidableEq, Repr

/-- `latest[f]`: projection of a record at an indicator name. -/
def recordVal (r : CountryRecord) : Feature → ℚ
  | .Area_Harvested => r.Area_Harvested
  | .Production_Tonnes => r.Production_Tonnes
  | .Avg_Temp => r.Avg_Temp
  | .Temp_Volatility => r.Temp_Volatility
  | .GDP_current_US => r.GDP_current_US
  | .political_stability_estimate => r.political_stability_estimate
  | .Inflation => r.Inflation
  | .CO2_emisions => r.CO2_emisions
  | .Agri_Land_Percent => r.Agri_Land_Percent
  | .Forest_Land_Percent => r.Forest_Land_Percent
  | .population => r.population

/-- `RISK_FEATURES` (src/app.py lines 65–69). -/
def RISK_FEATURES : List Feature :=
  [.Area_Harvested, .Production_Tonnes, .Avg_Temp, .Temp_Volatility,
   .GDP_current_US, .political_stability_estimate, .Inflation,
   .CO2_emisions, .Agri_Land_Percent, .Forest_Land_Percent, .population]

/-- `YIELD_FEATURES` (src/app.py line 71). -/
def YIELD_FEATURES : List Feature :=
  [.Avg_Temp, .Temp_Volatility, .GDP_current_US]

/-- A feature dictionary: an association list from indicator name to
value (spec §3 FeatureVector). -/
def Dict := List (Feature × ℚ)

/-- `{f: latest[f] for f in fs}` — dict comprehension over a feature
list (src/app.py lines 91–92). -/
def baseInput (r : CountryRecord) (fs : List Feature) : Dict :=
  fs.map (fun f => (f, recordVal r f))

/-- In-place update of one key of a dict, `d[k] = g(d[k])`
(src/app.py lines 94–97). -/
def dictUpdate (d : Dict) (k : Feature) (g : ℚ → ℚ) : Dict :=
  d.map (fun p => if p.1 = k then (p.1, g p.2) else p)

/-- Dictionary lookup. -/
def dictGet (d : Dict) (k : Feature) : Option ℚ :=
  (d.find? (fun p => p.1 = k)).map (fun p => p.2)

/-- `risk_input` after the shock updates of src/app.py lines 91, 94–95:
copy the 11 risk indicators, add `temp_delta` to `Avg_Temp`, scale
`GDP_current_US` by `1 + gdp_delta/100`. -/
def risk_input (r : CountryRecord) (temp_delta gdp_delta : ℚ) : Dict :=
  dictUpdate
    (dictUpdate (baseInput r RISK_FEATURES) .Avg_Temp (fun v => v + temp_delta))
    .GDP_current_US (fun v => v * (1 + gdp_delta / 100))

/-- `yield_input` after the shock updates of src/app.py lines 92, 96–97. -/
def yield_input (r : CountryRecord) (temp_delta gdp_delta : ℚ) : Dict :=
  dictUpdate
    (dictUpdate (baseInput r YIELD_FEATURES) .Avg_Temp (fun v => v + temp_delta))
    .GDP_current_US (fun v => v * (1 + gdp_delta / 100))

/-- The three risk tiers (src/app.py lines 138, 141, 144). -/
inductive RiskTier where
  | HIGH_RISK
  | LOW_RISK
  | STABLE
deriving DecidableEq, Repr

/-- The labeling rule of src/app.py lines 137–145, evaluated in source
order with first match winning. -/
def risk_label (risk_prob temp_delta gdp_delta : ℚ) : RiskTier :=
  if risk_prob ≥ 0.65 ∧ temp_delta > 0 then .HIGH_RISK
  else if risk_prob ≤ 0.35 ∧ temp_delta ≤ 0 ∧ gdp_delta ≥ 10 then .LOW_RISK
  else .STABLE

/-- Insert a record into a year-sorted list, keeping the list sorted by
year (helper for `sortByYear`). -/
def insertByYear (r : CountryRecord) : List CountryRecord → List CountryRecord
  | [] => [r]
  | x :: xs => if r.year ≤ x.year then r :: x :: xs else x :: insertByYear r xs

/-- `sort_values("Year")` (src/app.py line 88): sort a list of records
by ascending year. -/
def sortByYear : List CountryRecord → List CountryRecord
  | [] => []
  | x :: xs => insertByYear x (sortByYear xs)

/-- `df[df["Country"] == country].sort_values("Year")`
(src/app.py line 88). -/
def country_df (df : List CountryRecord) (c : String) : List CountryRecord :=
  sortByYear (df.filter (fun r => r.country = c))

/-- `country_df.iloc[-1]` (src/app.py line 89): the last row of the
year-sorted frame, `none` when the country has no rows. -/
def latest (df : List CountryRecord) (c : String) : Option CountryRecord :=
  (country_df df c).getLast?

/-- Failures of one simulation request (spec §7): the lookup at
src/app.py line 89 fails on a country with no rows, and a failing model
call at lines 133–134 aborts the request. -/
inductive SimError where
  | UnknownCountryError
  | ModelError (msg : String)
deriving DecidableEq, Repr

/-- The prediction path of src/app.py lines 88–145 as one
request/response operation (spec §4.3 RunSimulation): look up the
latest record, build both shocked feature dictionaries, call the risk
model then the yield model, and apply the labeling rule.  The two
serialized models are passed as fallible functions; a failure of
either call aborts the request. -/
def runSimulation (df : List CountryRecord)
    (classify : Dict → Except String ℚ) (predict : Dict → Except String ℚ)
    (c : String) (temp_delta gdp_delta : ℚ) :
    Except SimError (ℚ × RiskTier × ℚ) :=
  match latest df c with
  | none => .error .UnknownCountryError
  | some rec =>
    match classify (risk_input rec temp_delta gdp_delta) with
    | .error e => .error (.ModelError e)
    | .ok risk_prob =>
      match predict (yield_input rec temp_delta gdp_delta) with
      | .error e => .error (.ModelError e)
      | .ok yield_pred =>
        .ok (risk_prob, risk_label risk_prob temp_delta gdp_delta, yield_pred)

/-- Modelled from the Streamlit slider widget semantics: a slider
configured with bounds `mn`, `mx` and step `step` can deliver exactly
the grid values `mn + n * step` lying within the bounds. -/
def sliderValues (mn mx step : ℚ) : Set ℚ :=
  {q | ∃ n : ℕ, q = mn + n * step ∧ q ≤ mx}

/-- Values the `temp_delta` slider can deliver
(src/app.py line 82: bounds -2.0 and 4.0, step 0.5). -/
def temp_delta_values : Set ℚ := sliderValues (-2) 4 (1/2)

/-- Values the `gdp_delta` slider can deliver
(src/app.py line 83: bounds -20 and 30, step 5). -/
def gdp_delta_values : Set ℚ := sliderValues (-20) 30 5

/-- The first branch guard of src/app.py line 137. -/
def highPred (risk_prob temp_delta : ℚ) : Prop :=
  risk_prob ≥ 0.65 ∧ temp_delta > 0

/-- The second branch guard of src/app.py line 140. -/
def lowPred (risk_prob temp_delta gdp_delta : ℚ) : Prop :=
  risk_prob ≤ 0.35 ∧ temp_delta ≤ 0 ∧ gdp_delta ≥ 10

instance (p t : ℚ) : Decidable (highPred p t) := by
  unfold highPred; infer_instance

instance (p t g : ℚ) : Decidable (lowPred p t g) := by
  unfold lowPred; infer_instance

/-- A fixed sample record used by witnesses. -/
def sampleRecord : CountryRecord :=
  { country := "Lydia", year := 2020, Area_Harvested := 1000,
    Production_Tonnes := 5000, Avg_Temp := 20, Temp_Volatility := 1,
    GDP_current_US := 100000000000, political_stability_estimate := 0,
    Inflation := 3, CO2_emisions := 50, Agri_Land_Percent := 40,
    Forest_Land_Percent := 30, population := 10000000 }

/-!
## Helper lemmas on the labeling rule
-/

lemma risk_label_high (p td gd : ℚ) (h : p ≥ 0.65 ∧ td > 0) :
    risk_label p td gd = .HIGH_RISK := by
  unfold risk_label
  rw [if_pos h]

lemma risk_label_low (p td gd : ℚ) (h1 : ¬(p ≥ 0.65 ∧ td > 0))
    (h2 : p ≤ 0.35 ∧ td ≤ 0 ∧ gd ≥ 10) :
    risk_label p td gd = .LOW_RISK := by
  unfold risk_label
  rw [if_neg h1, if_pos h2]

lemma risk_label_stable (p td gd : ℚ) (h1 : ¬(p ≥ 0.65 ∧ td > 0))
    (h2 : ¬(p ≤ 0.35 ∧ td ≤ 0 ∧ gd ≥ 10)) :
    risk_label p td gd = .STABLE := by
  unfold risk_label
  rw [if_neg h1, if_neg h2]

/-!
## Claim theorems
-/

/-- **C1.** The labeling rule, applied to
`(probability, temp_delta, gdp_delta_percent)`, evaluates its branches
in source order with first match winning: if `probability ≥ 0.65` and
`temp_delta > 0` the label is HIGH_RISK; else if `probability ≤ 0.35`
and `temp_delta ≤ 0` and `gdp_delta_percent ≥ 10` the label is
LOW_RISK; else the label is STABLE — for every rational probability and
every pair of rational shock parameters. -/
theorem C1_label_branch_order (p td gd : ℚ) :
    (p ≥ 0.65 ∧ td > 0 → risk_label p td gd = .HIGH_RISK) ∧
    (¬(p ≥ 0.65 ∧ td > 0) → p ≤ 0.35 ∧ td ≤ 0 ∧ gd ≥ 10 →
      risk_label p td gd = .LOW_RISK) ∧
    (¬(p ≥ 0.65 ∧ td > 0) → ¬(p ≤ 0.35 ∧ td ≤ 0 ∧ gd ≥ 10) →
      risk_label p td gd = .STABLE) :=
  ⟨risk_label_high p td gd, risk_label_low p td gd, risk_label_stable p td gd⟩

/-- Witness for C1 at probability 0.7, temperature shift 1, GDP
change 0. -/
theorem C1_witness :
    risk_label 0.7 1 0 = .HIGH_RISK :=
  (C1_label_branch_order 0.7 1 0).1 (by norm_num)

/-- **C2.** For every `temp_delta` and `gdp_delta_percent` and every
baseline record, the derived average temperature equals the baseline
average temperature plus `temp_delta` exactly, and the derived GDP
equals `baseline_gdp * (1 + gdp_delta_percent/100)` exactly, in both
the risk feature vector and the yield feature vector. -/
theorem C2_shock_arithmetic (r : CountryRecord) (td gd : ℚ) :
    dictGet (risk_input r td gd) .Avg_Temp = some (r.Avg_Temp + td) ∧
    dictGet (risk_input r td gd) .GDP_current_US
      = some (r.GDP_current_US * (1 + gd / 100)) ∧
    dictGet (yield_input r td gd) .Avg_Temp = some (r.Avg_Temp + td) ∧
    dictGet (yield_input r td gd) .GDP_current_US
      = some (r.GDP_current_US * (1 + gd / 100)) :=
  ⟨rfl, rfl, rfl, rfl⟩

/-- Witness for C2 at the sample record, shock (1, 5). -/
theorem C2_witness :
    dictGet (risk_input sampleRecord 1 5) .Avg_Temp
        = some (sampleRecord.Avg_Temp + 1) ∧
      dictGet (risk_input sampleRecord 1 5) .GDP_current_US
        = some (sampleRecord.GDP_current_US * (1 + 5 / 100)) ∧
      dictGet (yield_input sampleRecord 1 5) .Avg_Temp
        = some (sampleRecord.Avg_Temp + 1) ∧
      dictGet (yield_input sampleRecord 1 5) .GDP_current_US
        = some (sampleRecord.GDP_current_US * (1 + 5 / 100)) :=
  C2_shock_arithmetic sampleRecord 1 5

/-- **C3.** For every shock and every baseline record, every indicator
in the derived feature vectors other than average temperature and GDP
is identical to the corresponding value of the baseline record. -/
theorem C3_frame_passthrough (r : CountryRecord) (td gd : ℚ) (f : Feature)
    (h1 : f ≠ .Avg_Temp) (h2 : f ≠ .GDP_current_US) :
    dictGet (risk_input r td gd) f = some (recordVal r f) ∧
    dictGet (yield_input r td gd) f = dictGet (baseInput r YIELD_FEATURES) f := by
  cases f <;> simp_all <;> exact ⟨rfl, rfl⟩

/-- Witness for C3 at the Temp_Volatility indicator. -/
theorem C3_witness :
    dictGet (risk_input sampleRecord 1 5) .Temp_Volatility
        = some (recordVal sampleRecord .Temp_Volatility) ∧
      dictGet (yield_input sampleRecord 1 5) .Temp_Volatility
        = dictGet (baseInput sampleRecord YIELD_FEATURES) .Temp_Volatility :=
  C3_frame_passthrough sampleRecord 1 5 .Temp_Volatility
    (by simp) (by simp)

/-- **C4.** The labeling rule is a pure function of
`(probability, temp_delta, gdp_delta_percent)` — equal inputs yield
equal labels — and for every input exactly one of the three branches
fires: the HIGH_RISK guard and the LOW_RISK guard are mutually
exclusive, and the STABLE branch covers exactly the remaining
inputs. -/
theorem C4_branches_partition (p td gd : ℚ) :
    (∀ p' td' gd', p = p' → td = td' → gd = gd' →
      risk_label p td gd = risk_label p' td' gd') ∧
    ¬(highPred p td ∧ lowPred p td gd) ∧
    ((highPred p td ∧ risk_label p td gd = .HIGH_RISK) ∨
     (¬highPred p td ∧ lowPred p td gd ∧ risk_label p td gd = .LOW_RISK) ∨
     (¬highPred p td ∧ ¬lowPred p td gd ∧ risk_label p td gd = .STABLE)) := by
  refine ⟨fun p' td' gd' hp htd hgd => by rw [hp, htd, hgd], ?_, ?_⟩
  · rintro ⟨⟨h1, h2⟩, h3, h4, -⟩
    norm_num at h1 h3
    linarith
  · by_cases hH : highPred p td
    · exact Or.inl ⟨hH, risk_label_high p td gd hH⟩
    · by_cases hL : lowPred p td gd
      · exact Or.inr (Or.inl ⟨hH, hL, risk_label_low p td gd hH hL⟩)
      · exact Or.inr (Or.inr ⟨hH, hL, risk_label_stable p td gd hH hL⟩)

/-- Witness for C4: the two guards are mutually exclusive at
probability 0.7, temperature shift 1, GDP change 20. -/
theorem C4_witness : ¬(highPred 0.7 1 ∧ lowPred 0.7 1 20) :=
  (C4_branches_partition 0.7 1 20).2.1

/-- **C5.** Boundary cases of the labeling rule: probability 0.65 with
`temp_delta = 0.0001` yields HIGH_RISK (for every GDP change);
probability 0.65 with `temp_delta = 0` does not yield HIGH_RISK (for
every GDP change); probability 0.35 with `temp_delta = 0` and GDP
change 10 yields LOW_RISK; probability 0.35 with `temp_delta = 0` and
GDP change 9.999 yields STABLE. -/
theorem C5_boundary_cases (gd gd' : ℚ) :
    risk_label 0.65 0.0001 gd = .HIGH_RISK ∧
    risk_label 0.65 0 gd' ≠ .HIGH_RISK ∧
    risk_label 0.35 0 10 = .LOW_RISK ∧
    risk_label 0.35 0 9.999 = .STABLE := by
  refine ⟨?_, ?_, ?_, ?_⟩ <;> norm_num [risk_label] <;> decide

/-- Witness for C5 at GDP changes 0 and 20. -/
theorem C5_witness :
    risk_label 0.65 0.0001 0 = .HIGH_RISK ∧
      risk_label 0.65 0 20 ≠ .HIGH_RISK ∧
      risk_label 0.35 0 10 = .LOW_RISK ∧
      risk_label 0.35 0 9.999 = .STABLE :=
  C5_boundary_cases 0 20

/-- Counterexample to **C6**: the code has no probability-range check.
With the risk model returning probability 3/2 — outside [0,1] — the
request still succeeds and a HIGH_RISK label is produced; no
`InvalidProbabilityError` is raised anywhere in src/app.py. -/
theorem C6_counterexample :
    ¬ ((3 / 2 : ℚ) ≤ 1) ∧
    runSimulation [sampleRecord] (fun _ => .ok (3 / 2)) (fun _ => .ok 4)
      "Lydia" 1 0 = .ok (3 / 2, .HIGH_RISK, 4) := by
  refine ⟨by norm_num, ?_⟩
  show Except.ok ((3 / 2 : ℚ), risk_label (3 / 2) 1 0, (4 : ℚ)) = _
  rw [risk_label_high _ _ _ (by norm_num)]

/-- **C6 (amended).** The code performs no validation of the
probability returned by the risk model: whenever the country lookup
succeeds and both model calls return values, the simulation succeeds
and produces a label, even when the returned probability lies outside
[0,1]; no `InvalidProbabilityError` exists. -/
theorem C6_no_range_validation (df : List CountryRecord)
    (classify predict : Dict → Except String ℚ) (c : String)
    (td gd p y : ℚ) (rec : CountryRecord)
    (hrec : latest df c = some rec)
    (hp : ¬(0 ≤ p ∧ p ≤ 1))
    (hc : classify (risk_input rec td gd) = .ok p)
    (hy : predict (yield_input rec td gd) = .ok y) :
    runSimulation df classify predict c td gd
      = .ok (p, risk_label p td gd, y) := by
  simp [runSimulation, hrec, hc, hy]

/-- Witness for the amended C6 at probability 3/2. -/
theorem C6_witness :
    runSimulation [sampleRecord] (fun _ => .ok (3 / 2)) (fun _ => .ok 7)
      "Lydia" 2 0 = .ok (3 / 2, risk_label (3 / 2) 2 0, 7) :=
  C6_no_range_validation [sampleRecord] _ _ "Lydia" 2 0 (3 / 2) 7
    sampleRecord rfl (by norm_num) rfl rfl

/-- **C7.** For every country name that has no record in the record
store, the simulation fails with `UnknownCountryError`, and the result
does not depend on either model — i.e. zero model calls are made
before the failure is surfaced. -/
theorem C7_unknown_country (df : List CountryRecord)
    (classify predict : Dict → Except String ℚ) (c : String) (td gd : ℚ)
    (h : ∀ r ∈ df, r.country ≠ c) :
    runSimulation df classify predict c td gd = .error .UnknownCountryError ∧
    ∀ classify' predict' : Dict → Except String ℚ,
      runSimulation df classify' predict' c td gd
        = runSimulation df classify predict c td gd := by
  have hfilter : df.filter (fun r => r.country = c) = [] := by
    rw [List.filter_eq_nil_iff]
    intro a ha
    simp [h a ha]
  have hlatest : latest df c = none := by
    simp [latest, country_df, hfilter, sortByYear]
  refine ⟨by simp [runSimulation, hlatest], fun classify' predict' => ?_⟩
  simp [runSimulation, hlatest]

/-- Witness for C7 at a store holding only one country. -/
theorem C7_witness :
    runSimulation [sampleRecord] (fun _ => .ok 0) (fun _ => .ok 0)
      "Phrygia" 0 0 = .error .UnknownCountryError :=
  (C7_unknown_country [sampleRecord] _ _ "Phrygia" 0 0
    (by intro r hr; simp at hr; subst hr; simp [sampleRecord])).1

/-- **C8.** The simulation result is all-or-nothing: if the risk model
call fails, the whole request fails with that error (the yield call is
not reported as succeeding on its own), and if the risk call succeeds
but the yield call fails, the whole request fails with the yield
error.  No partial pair is ever returned. -/
theorem C8_all_or_nothing (df : List CountryRecord)
    (classify predict : Dict → Except String ℚ) (c : String) (td gd : ℚ)
    (rec : CountryRecord) (hrec : latest df c = some rec) :
    (∀ e, classify (risk_input rec td gd) = .error e →
      runSimulation df classify predict c td gd = .error (.ModelError e)) ∧
    (∀ p e, classify (risk_input rec td gd) = .ok p →
      predict (yield_input rec td gd) = .error e →
      runSimulation df classify predict c td gd = .error (.ModelError e)) := by
  constructor
  · intro e he
    simp [runSimulation, hrec, he]
  · intro p e hp he
    simp [runSimulation, hrec, hp, he]

/-- Witness for C8: a failing risk model aborts the whole request. -/
theorem C8_witness :
    runSimulation [sampleRecord] (fun _ => .error "boom") (fun _ => .ok 4)
      "Lydia" 0 0 = .error (.ModelError "boom") :=
  (C8_all_or_nothing [sampleRecord] _ _ "Lydia" 0 0 sampleRecord rfl).1
    "boom" rfl

/-- **C9.** The simulation is deterministic: for equal baseline
records and equal shocks, the derived feature vectors are equal, the
label is equal at every probability, and with the models treated as
fixed pure functions the whole request/response is equal. -/
theorem C9_deterministic (df : List CountryRecord)
    (classify predict : Dict → Except String ℚ) (c : String)
    (r₁ r₂ : CountryRecord) (td₁ td₂ gd₁ gd₂ : ℚ)
    (hr : r₁ = r₂) (htd : td₁ = td₂) (hgd : gd₁ = gd₂) :
    risk_input r₁ td₁ gd₁ = risk_input r₂ td₂ gd₂ ∧
    yield_input r₁ td₁ gd₁ = yield_input r₂ td₂ gd₂ ∧
    (∀ p, risk_label p td₁ gd₁ = risk_label p td₂ gd₂) ∧
    runSimulation df classify predict c td₁ gd₁
      = runSimulation df classify predict c td₂ gd₂ := by
  subst hr htd hgd
  exact ⟨rfl, rfl, fun p => rfl, rfl⟩

/-- Witness for C9 at the sample record and a 1.5 °C shock. -/
theorem C9_witness :
    risk_input sampleRecord 1.5 0 = risk_input sampleRecord 1.5 0 ∧
    yield_input sampleRecord 1.5 0 = yield_input sampleRecord 1.5 0 ∧
    (∀ p, risk_label p 1.5 0 = risk_label p 1.5 0) ∧
    runSimulation [sampleRecord] (fun _ => .ok 0.7) (fun _ => .ok 4)
        "Lydia" 1.5 0
      = runSimulation [sampleRecord] (fun _ => .ok 0.7) (fun _ => .ok 4)
        "Lydia" 1.5 0 :=
  C9_deterministic [sampleRecord] _ _ "Lydia" sampleRecord sampleRecord
    1.5 1.5 0 0 rfl rfl rfl

/-- **C10.** Every shock the sliders can actually deliver is range-
and granularity-constrained: `temp_delta` is a multiple of 0.5 in
[-2, 4] and `gdp_delta` is an integer multiple of 5 in [-20, 30];
consequently on reachable inputs `gdp_delta ≥ 10` holds exactly for
10, 15, 20, 25, 30, and the non-grid value 9.999 is unreachable. -/
theorem C10_slider_reachability :
    (∀ q ∈ temp_delta_values, (∃ k : ℤ, q = k / 2) ∧ -2 ≤ q ∧ q ≤ 4) ∧
    (∀ q ∈ gdp_delta_values, (∃ k : ℤ, q = 5 * k) ∧ -20 ≤ q ∧ q ≤ 30) ∧
    (∀ q ∈ gdp_delta_values,
      (q ≥ 10 ↔ q = 10 ∨ q = 15 ∨ q = 20 ∨ q = 25 ∨ q = 30)) ∧
    (9999 / 1000 : ℚ) ∉ gdp_delta_values := by
  refine ⟨?_, ?_, ?_, ?_⟩
  · rintro q ⟨n, hq, hle⟩
    have hn : (0 : ℚ) ≤ n := Nat.cast_nonneg n
    refine ⟨⟨(n : ℤ) - 4, ?_⟩, by linarith, hle⟩
    rw [hq]
    push_cast
    ring
  · rintro q ⟨n, hq, hle⟩
    have hn : (0 : ℚ) ≤ n := Nat.cast_nonneg n
    refine ⟨⟨(n : ℤ) - 4, ?_⟩, by linarith, hle⟩
    rw [hq]
    push_cast
    ring
  · rintro q ⟨n, hq, hle⟩
    constructor
    · intro hq10
      have hub : n ≤ 10 := by
        have : (n : ℚ) ≤ 10 := by linarith
        exact_mod_cast this
      have hlb : 6 ≤ n := by
        have : (6 : ℚ) ≤ n := by linarith
        exact_mod_cast this
      subst hq
      interval_cases n <;> norm_num
    · rintro (h | h | h | h | h) <;> rw [h] <;> norm_num
  · rintro ⟨n, hq, -⟩
    have h1 : (5000 * n : ℚ) = 29999 := by
      linarith
    have h2 : 5000 * n = 29999 := by exact_mod_cast h1
    omega

/-- Witness for C10 at the reachable slider values 0.5 and 10. -/
theorem C10_witness :
    ((1 / 2 : ℚ) ∈ temp_delta_values ∧
      (∃ k : ℤ, (1 / 2 : ℚ) = k / 2) ∧
      -2 ≤ (1 / 2 : ℚ) ∧ (1 / 2 : ℚ) ≤ 4) ∧
    ((10 : ℚ) ∈ gdp_delta_values ∧
      ((10 : ℚ) ≥ 10 ↔
        (10 : ℚ) = 10 ∨ (10 : ℚ) = 15 ∨ (10 : ℚ) = 20 ∨
        (10 : ℚ) = 25 ∨ (10 : ℚ) = 30)) := by
  have hmem1 : (1 / 2 : ℚ) ∈ temp_delta_values := ⟨5, by norm_num⟩
  have hmem2 : (10 : ℚ) ∈ gdp_delta_values := ⟨6, by norm_num⟩
  exact ⟨⟨hmem1, C10_slider_reachability.1 (1 / 2) hmem1⟩,
    ⟨hmem2, C10_slider_reachability.2.2.1 10 hmem2⟩⟩

end ClimateAgriShield
